import Mathlib

/-!
Verification of the password validator from `vince-kr/password-example`.

The repository holds two Python implementations of one predicate:
a free function `is_valid` in `validate_password_function.py` and a
`str`-subclass `Password` with a computed property `is_valid` in
`password_class.py`.  Both build a Python `set` of five boolean
constraint results and return `all(...)` of that set.

Embedding choices:
* A Python `str` is embedded as `List Char`.
* Python's `set({b1, ..., b5})` of booleans followed by `all` is embedded
  as `List.dedup` (duplicate collapse, as a set does) followed by
  `List.all id`.
* The single-character classifiers `str.isupper`, `str.islower` and
  `str.isnumeric` are Python-runtime builtins, not repository code: their
  full tables are the Unicode character database, which is external to
  the program.  The validator skeleton `is_valid_with` therefore takes
  the three classifiers as parameters; the claims that quantify over
  arbitrary characters are proved for every choice of classifiers,
  hence in particular for Python's true full-Unicode tables.
  `pyIsUpper`, `pyIsLower` and `pyIsNumeric` are the restrictions of
  Python's tables to the Latin-1 repertoire (code points 0..255, exact
  there; every character above U+00FF is classified false, unlike
  Python); they instantiate the skeleton to the executable `is_valid`
  used for concrete evaluation, whose inputs stay within Latin-1.
* `special_char in password` tests substring containment in Python; for a
  single-character needle this is exactly character membership, embedded
  as `List.contains`.
-/

/-- Python's `str.isupper` on a single character, restricted to Latin-1:
the ASCII uppercase letters plus the Latin-1 uppercase letters
U+00C0..U+00D6 and U+00D8..U+00DE.  Exact on code points 0..255;
characters above U+00FF are classified false here although Python
accepts further uppercase letters (e.g. Greek capitals), so theorems
about arbitrary characters are stated over `is_valid_with` with the
classifier as a parameter instead. -/
def pyIsUpper (c : Char) : Bool :=
  (65 ≤ c.toNat && c.toNat ≤ 90) ||
  (192 ≤ c.toNat && c.toNat ≤ 214) ||
  (216 ≤ c.toNat && c.toNat ≤ 222)

/-- Python's `str.islower` on a single character, restricted to Latin-1:
the ASCII lowercase letters, the ordinal indicators U+00AA and U+00BA,
micro sign U+00B5, and the Latin-1 lowercase letters U+00DF..U+00F6 and
U+00F8..U+00FF.  Exact on code points 0..255; characters above U+00FF
are classified false here although Python accepts further lowercase
letters, so theorems about arbitrary characters are stated over
`is_valid_with` with the classifier as a parameter instead. -/
def pyIsLower (c : Char) : Bool :=
  (97 ≤ c.toNat && c.toNat ≤ 122) ||
  (c.toNat == 170) ||
  (c.toNat == 181) ||
  (c.toNat == 186) ||
  (223 ≤ c.toNat && c.toNat ≤ 246) ||
  (248 ≤ c.toNat && c.toNat ≤ 255)

/-- Python's `str.isnumeric` on a single character, restricted to Latin-1:
the ASCII digits plus the Latin-1 numeric characters superscript two
U+00B2, superscript three U+00B3, superscript one U+00B9 and the vulgar
fractions U+00BC..U+00BE.  Exact on code points 0..255; characters above
U+00FF are classified false here although Python accepts further numeric
characters (e.g. Arabic-Indic digits), so theorems about arbitrary
characters are stated over `is_valid_with` with the classifier as a
parameter instead. -/
def pyIsNumeric (c : Char) : Bool :=
  (48 ≤ c.toNat && c.toNat ≤ 57) ||
  (c.toNat == 178) || (c.toNat == 179) || (c.toNat == 185) ||
  (188 ≤ c.toNat && c.toNat ≤ 190)

/-- The tuple `SPECIAL_CHARS = ("!", "?", "&", "%", "*", "@")` defined
inside `is_valid` in `validate_password_function.py`. -/
def SPECIAL_CHARS : List Char := ['!', '?', '&', '%', '*', '@']

/-- The five constraint expressions built inside `is_valid`
(`validate_password_function.py`, lines 15-26), in source order:
length at least 6, an uppercase character, a lowercase character,
a numeric character, and one of the special characters occurring in
the password. -/
def constraints (password : List Char) : List Bool :=
  [ decide (password.length ≥ 6),
    password.any (fun character => pyIsUpper character),
    password.any (fun character => pyIsLower character),
    password.any (fun character => pyIsNumeric character),
    SPECIAL_CHARS.any (fun special_char => password.contains special_char) ]

/-- The free function `is_valid` of `validate_password_function.py`:
collect the five constraint results into a set (`dedup`) and return the
conjunction (`all`) of that set. -/
def is_valid (password : List Char) : Bool :=
  ((constraints password).dedup).all id

namespace Password

/-- The class attribute `Password._SPECIAL_CHARS` of `password_class.py`. -/
def _SPECIAL_CHARS : List Char := ['!', '?', '&', '%', '*', '@']

/-- The method `Password._constraints` of `password_class.py`
(lines 16-25): the same five constraint expressions, with the lowercase
check listed before the uppercase one. -/
def _constraints (self : List Char) : List Bool :=
  [ decide (self.length ≥ 6),
    self.any (fun character => pyIsLower character),
    self.any (fun character => pyIsUpper character),
    self.any (fun character => pyIsNumeric character),
    _SPECIAL_CHARS.any (fun special_char => self.contains special_char) ]

/-- The computed property `Password.is_valid` of `password_class.py`:
`all` of the set of constraint results. -/
def is_valid (self : List Char) : Bool :=
  ((_constraints self).dedup).all id

end Password

/-- The validator skeleton of `is_valid` with the three Python builtin
character classifiers as parameters.  `str.isupper`, `str.islower` and
`str.isnumeric` are runtime builtins whose full tables (the Unicode
character database) are external to the repository, so statements that
quantify over arbitrary characters are proved for every choice of
classifiers; everything else (the length check, the special-character
check, the set of constraints and its conjunction) is the source code
verbatim.  `is_valid` is the instantiation at the Latin-1 restrictions
(`is_valid_eq_with`). -/
def is_valid_with (isupper islower isnumeric : Char → Bool)
    (password : List Char) : Bool :=
  ([ decide (password.length ≥ 6),
     password.any (fun character => isupper character),
     password.any (fun character => islower character),
     password.any (fun character => isnumeric character),
     SPECIAL_CHARS.any (fun special_char => password.contains special_char)
   ].dedup).all id

/-- `all` over the deduplicated list agrees with `all` over the list:
collapsing duplicate booleans into a set does not change the
conjunction. -/
lemma dedup_all_id (l : List Bool) : (l.dedup).all id = l.all id := by
  rcases h : l.all id with _ | _
  · rw [List.all_eq_false] at h ⊢
    obtain ⟨x, hx, hfx⟩ := h
    exact ⟨x, List.mem_dedup.mpr hx, hfx⟩
  · rw [List.all_eq_true] at h ⊢
    exact fun x hx => h x (List.mem_dedup.mp hx)

/-- `is_valid` is the parametric skeleton instantiated at the Latin-1
classifier restrictions (definitional). -/
lemma is_valid_eq_with (p : List Char) :
    is_valid p = is_valid_with pyIsUpper pyIsLower pyIsNumeric p := rfl

/-- Characterisation of the skeleton, for every choice of the three
classifiers: the validator returns true exactly when all five predicates
of the policy hold. -/
lemma is_valid_with_eq_true_iff (u l n : Char → Bool) (p : List Char) :
    is_valid_with u l n p = true ↔
      (6 ≤ p.length ∧
       (∃ c ∈ p, l c = true) ∧
       (∃ c ∈ p, u c = true) ∧
       (∃ c ∈ p, n c = true) ∧
       (∃ c ∈ p, c ∈ SPECIAL_CHARS)) := by
  unfold is_valid_with
  rw [dedup_all_id]
  simp only [List.all_cons, List.all_nil, id_eq, Bool.and_eq_true,
    decide_eq_true_eq, List.any_eq_true, List.elem_iff,
    Bool.and_true]
  constructor
  · rintro ⟨hlen, hup, hlo, hnum, hsp⟩
    exact ⟨hlen, hlo, hup, hnum, by
      obtain ⟨sc, hsc, hmem⟩ := hsp
      exact ⟨sc, hmem, hsc⟩⟩
  · rintro ⟨hlen, hlo, hup, hnum, hsp⟩
    exact ⟨hlen, hup, hlo, hnum, by
      obtain ⟨c, hc, hmem⟩ := hsp
      exact ⟨c, hmem, hc⟩⟩

/-- Characterisation of the free function: `is_valid` is true exactly when
all five predicates of the policy hold. -/
lemma is_valid_eq_true_iff (p : List Char) :
    is_valid p = true ↔
      (6 ≤ p.length ∧
       (∃ c ∈ p, pyIsLower c = true) ∧
       (∃ c ∈ p, pyIsUpper c = true) ∧
       (∃ c ∈ p, pyIsNumeric c = true) ∧
       (∃ c ∈ p, c ∈ SPECIAL_CHARS)) := by
  rw [is_valid_eq_with]
  exact is_valid_with_eq_true_iff pyIsUpper pyIsLower pyIsNumeric p

/-- The two implementations agree pointwise. -/
lemma is_valid_eq_class (p : List Char) : is_valid p = Password.is_valid p := by
  unfold is_valid Password.is_valid constraints Password._constraints
  rw [dedup_all_id, dedup_all_id]
  simp only [List.all_cons, List.all_nil, id_eq]
  show (_ && (_ && (_ && (_ && (_ && true))))) = _
  rw [show Password._SPECIAL_CHARS = SPECIAL_CHARS from rfl]
  cases h1 : decide (p.length ≥ 6) <;>
    cases h2 : p.any (fun c => pyIsUpper c) <;>
    cases h3 : p.any (fun c => pyIsLower c) <;>
    simp

/-- C1: for every password, the validator returns true if and only if all
five predicates hold simultaneously: length at least 6, a lowercase
character, an uppercase character, a numeric character, and a member of
the fixed special-character set.  The three character-class predicates
are the Python builtins, whose full tables are external to the program,
so the equivalence is proved for every choice of classifier functions —
in particular for Python's true full-Unicode tables; the executable
`is_valid` is the instantiation at the Latin-1 restrictions. -/
theorem C1_is_valid_iff_five_predicates
    (isupper islower isnumeric : Char → Bool) (password : List Char) :
    is_valid_with isupper islower isnumeric password = true ↔
      (6 ≤ password.length ∧
       (∃ c ∈ password, islower c = true) ∧
       (∃ c ∈ password, isupper c = true) ∧
       (∃ c ∈ password, isnumeric c = true) ∧
       (∃ c ∈ password, c ∈ SPECIAL_CHARS)) :=
  is_valid_with_eq_true_iff isupper islower isnumeric password

/-- C2: the free function `is_valid` and the computed property
`Password.is_valid` are extensionally equal. -/
theorem C2_function_agrees_with_class (s : List Char) :
    is_valid s = Password.is_valid s :=
  is_valid_eq_class s

/-- C3: every text of length strictly less than 6 is rejected, whatever its
characters; in particular the empty string is rejected. -/
theorem C3_short_text_rejected (t : List Char) (h : t.length < 6) :
    is_valid t = false := by
  rcases hv : is_valid t with _ | _
  · rfl
  · exact absurd ((is_valid_eq_true_iff t).mp hv).1 (by omega)

theorem C3_short_text_rejected_witness :
    ([] : List Char).length < 6 ∧ is_valid ([] : List Char) = false :=
  ⟨by decide, C3_short_text_rejected [] (by decide)⟩

/-- C4: each character-class predicate is necessary: a text with no special
character, or in which no character satisfies the uppercase, lowercase or
numeric classifier, is rejected.  The classifiers are the Python builtins,
external to the program, so the rejection is proved for every choice of
classifier functions — in particular for Python's true full-Unicode
tables. -/
theorem C4_each_class_necessary
    (isupper islower isnumeric : Char → Bool) (t : List Char)
    (h : (∀ c ∈ t, c ∉ SPECIAL_CHARS) ∨
         (∀ c ∈ t, isupper c = false) ∨
         (∀ c ∈ t, islower c = false) ∨
         (∀ c ∈ t, isnumeric c = false)) :
    is_valid_with isupper islower isnumeric t = false := by
  rcases hv : is_valid_with isupper islower isnumeric t with _ | _
  · rfl
  · obtain ⟨-, hlo, hup, hnum, hsp⟩ :=
      (is_valid_with_eq_true_iff isupper islower isnumeric t).mp hv
    rcases h with h | h | h | h
    · obtain ⟨c, hc, hmem⟩ := hsp
      exact absurd hmem (h c hc)
    · obtain ⟨c, hc, hm⟩ := hup
      simp [h c hc] at hm
    · obtain ⟨c, hc, hm⟩ := hlo
      simp [h c hc] at hm
    · obtain ⟨c, hc, hm⟩ := hnum
      simp [h c hc] at hm

theorem C4_each_class_necessary_witness :
    (∀ c ∈ ['a', 'b', 'c', 'd', 'e', 'f', 'A', '1'], c ∉ SPECIAL_CHARS) ∧
    is_valid_with pyIsUpper pyIsLower pyIsNumeric
      ['a', 'b', 'c', 'd', 'e', 'f', 'A', '1'] = false :=
  ⟨by decide,
   C4_each_class_necessary pyIsUpper pyIsLower pyIsNumeric
     ['a', 'b', 'c', 'd', 'e', 'f', 'A', '1'] (Or.inl (by decide))⟩

/-- C5: the concrete test vectors: the first two sample passwords are
accepted and the all-lowercase sample is rejected. -/
theorem C5_test_vectors :
    is_valid "Ab1!ab".toList = true ∧
    is_valid "PythonR0cks!".toList = true ∧
    is_valid "password".toList = false := by
  refine ⟨by decide, by decide, by decide⟩

/-- C6: the function is total: every text input evaluates to one of the two
booleans, so no error branch is reachable in the embedding. -/
theorem C6_total_boolean (t : List Char) :
    is_valid t = true ∨ is_valid t = false := by
  rcases is_valid t with _ | _
  · exact Or.inr rfl
  · exact Or.inl rfl

/-- Validity transfers along a permutation of the characters. -/
lemma is_valid_true_of_perm {a b : List Char} (hab : a.Perm b)
    (ha : is_valid a = true) : is_valid b = true := by
  obtain ⟨h1, h2, h3, h4, h5⟩ := (is_valid_eq_true_iff a).mp ha
  refine (is_valid_eq_true_iff b).mpr ⟨hab.length_eq ▸ h1, ?_, ?_, ?_, ?_⟩
  · obtain ⟨c, hc, hp⟩ := h2
    exact ⟨c, hab.mem_iff.mp hc, hp⟩
  · obtain ⟨c, hc, hp⟩ := h3
    exact ⟨c, hab.mem_iff.mp hc, hp⟩
  · obtain ⟨c, hc, hp⟩ := h4
    exact ⟨c, hab.mem_iff.mp hc, hp⟩
  · obtain ⟨c, hc, hp⟩ := h5
    exact ⟨c, hab.mem_iff.mp hc, hp⟩

/-- C7: permutation invariance: permuting the characters of a text does not
change the verdict, since the length and the four presence checks depend
only on the multiset of characters. -/
theorem C7_permutation_invariant (t t' : List Char) (h : t.Perm t') :
    is_valid t' = is_valid t := by
  rcases hv : is_valid t with _ | _
  · rcases hv' : is_valid t' with _ | _
    · rfl
    · rw [is_valid_true_of_perm h.symm hv'] at hv
      exact hv
  · exact is_valid_true_of_perm h hv

theorem C7_permutation_invariant_witness :
    (List.Perm ['A', 'b', '1', '!', 'a', 'b'] ['!', 'b', '1', 'A', 'a', 'b']) ∧
    is_valid ['!', 'b', '1', 'A', 'a', 'b'] =
      is_valid ['A', 'b', '1', '!', 'a', 'b'] :=
  ⟨by decide,
   C7_permutation_invariant ['A', 'b', '1', '!', 'a', 'b']
     ['!', 'b', '1', 'A', 'a', 'b'] (by decide)⟩

/-- C8: determinism: the verdict is a function of the input text alone, so
two invocations on equal inputs yield equal results; the embedding of the
function reads no state besides its argument and the fixed special set. -/
theorem C8_deterministic (s t : List Char) (h : s = t) :
    is_valid s = is_valid t := by
  rw [h]

theorem C8_deterministic_witness :
    "Ab1!ab".toList = "Ab1!ab".toList ∧
    is_valid "Ab1!ab".toList = is_valid "Ab1!ab".toList :=
  ⟨rfl, C8_deterministic "Ab1!ab".toList "Ab1!ab".toList rfl⟩

/-- C9: validity is preserved under extension: appending any string on
either side of a valid password keeps it valid. -/
theorem C9_extension_preserves_validity (p s : List Char)
    (h : is_valid p = true) :
    is_valid (p ++ s) = true ∧ is_valid (s ++ p) = true := by
  obtain ⟨h1, h2, h3, h4, h5⟩ := (is_valid_eq_true_iff p).mp h
  constructor
  · refine (is_valid_eq_true_iff _).mpr ⟨?_, ?_, ?_, ?_, ?_⟩
    · rw [List.length_append]
      omega
    · obtain ⟨c, hc, hp⟩ := h2
      exact ⟨c, List.mem_append.mpr (Or.inl hc), hp⟩
    · obtain ⟨c, hc, hp⟩ := h3
      exact ⟨c, List.mem_append.mpr (Or.inl hc), hp⟩
    · obtain ⟨c, hc, hp⟩ := h4
      exact ⟨c, List.mem_append.mpr (Or.inl hc), hp⟩
    · obtain ⟨c, hc, hp⟩ := h5
      exact ⟨c, List.mem_append.mpr (Or.inl hc), hp⟩
  · refine (is_valid_eq_true_iff _).mpr ⟨?_, ?_, ?_, ?_, ?_⟩
    · rw [List.length_append]
      omega
    · obtain ⟨c, hc, hp⟩ := h2
      exact ⟨c, List.mem_append.mpr (Or.inr hc), hp⟩
    · obtain ⟨c, hc, hp⟩ := h3
      exact ⟨c, List.mem_append.mpr (Or.inr hc), hp⟩
    · obtain ⟨c, hc, hp⟩ := h4
      exact ⟨c, List.mem_append.mpr (Or.inr hc), hp⟩
    · obtain ⟨c, hc, hp⟩ := h5
      exact ⟨c, List.mem_append.mpr (Or.inr hc), hp⟩

theorem C9_extension_preserves_validity_witness :
    is_valid "Ab1!ab".toList = true ∧
    is_valid ("Ab1!ab".toList ++ "xy".toList) = true ∧
    is_valid ("xy".toList ++ "Ab1!ab".toList) = true :=
  ⟨by decide,
   (C9_extension_preserves_validity "Ab1!ab".toList "xy".toList (by decide)).1,
   (C9_extension_preserves_validity "Ab1!ab".toList "xy".toList (by decide)).2⟩

/-- C10: the numeric check is Unicode-aware: a password whose only numeric
character is the non-ASCII vulgar fraction one half is accepted, while the
same password with that character replaced by a letter is rejected. -/
theorem C10_unicode_numeric :
    is_valid ['A', 'b', '!', '½', 'c', 'd'] = true ∧
    (∀ c ∈ ['A', 'b', '!', '½', 'c', 'd'], pyIsNumeric c = true → c = '½') ∧
    128 ≤ Char.toNat '½' ∧
    is_valid ['A', 'b', '!', 'e', 'c', 'd'] = false := by
  refine ⟨by decide, by decide, by decide, by decide⟩
